import Mathlib

/-!
# SigmaPilot-Lens: verification of the processing-pipeline claims

A shallow embedding, in Lean 4, of the parts of the SigmaPilot-Lens
pipeline that the frozen claims are about:

* the pre-enrichment signal validator
  (`src/services/enrichment/signal_validator.py`),
* the WebSocket subscription filter and broadcast fan-out
  (`src/services/publisher/ws_server.py`),
* decision-output normalization
  (`src/services/evaluation/models/factory.py`),
* signal submission with idempotency-key suppression
  (`src/api/v1/signals.py`),
* the enrichment worker's forwarding logic
  (`src/workers/enrichment_worker.py`,
  `src/services/enrichment/enrichment_service.py`),
* DLQ retry routing (`src/api/v1/dlq.py`) together with the pydantic
  constraints of `src/models/schemas/decision.py` that gate what those
  code paths persist.

Machine floats of the Python source are modelled as rationals (`ℚ`);
timestamps are modelled as rational "seconds" with ISO-8601 parsing
abstracted into an arbitrary partial parse function; network calls
(market-data fetches, queue appends) are modelled as explicit
`Except`/outcome parameters so that each code path becomes a pure
function of its inputs.
-/

namespace SigmaPilotLens

/-! ## Signal validator (`src/services/enrichment/signal_validator.py`)

`SignalValidator.validate` receives a raw signal dict and performs the
age check followed by the drift check.  The embedding keeps the source's
straight-line structure: `signalAge` is the age computation of lines
134–141, `driftCheck` is everything after the age gate (lines 164–219),
and `validate` is the whole body.  The market-data fetch
(`provider.get_ticker(symbol).mid`) is an `Except Unit ℚ` input:
`.error` models a `ProviderError` (which the source re-raises),
`.ok mid` a successful fetch. -/

/-- The two rejection reasons the validator can produce (the source's
`rejection_reason` strings `"Signal too old: ..."` and
`"Price drift too high: ..."`, kept as tags). -/
inductive RejectReason where
  | signalTooOld
  | priceDriftTooHigh
  deriving DecidableEq, Repr

/-- The `ValidationResult` dataclass of `signal_validator.py`. -/
structure ValidationResult where
  valid : Bool
  current_price : Option ℚ
  entry_price : ℚ
  drift_bps : ℚ
  signal_age_seconds : ℚ
  rejection_reason : Option RejectReason := none
  deriving DecidableEq, Repr

/-- The fields of the raw signal dict that `validate` reads:
`signal.get("symbol", "")`, `float(signal.get("entry_price", 0))`,
`signal.get("ts_utc", "")`.  A missing or `None` `ts_utc` is the empty
string, exactly as the source's `.get("ts_utc", "")` plus truthiness
test conflates them. -/
structure Signal where
  symbol : String := ""
  entry_price : ℚ := 0
  ts_utc : String := ""
  deriving DecidableEq, Repr

/-- Default `MAX_PRICE_DRIFT_BPS` of `SignalValidator` (200 bps = 2%). -/
def MAX_PRICE_DRIFT_BPS : ℚ := 200

/-- Default `MAX_SIGNAL_AGE_SECONDS` of `SignalValidator` (300 s). -/
def MAX_SIGNAL_AGE_SECONDS : ℚ := 300

/-- Lines 134–141 of `signal_validator.py`: `signal_age_seconds` starts
at `0.0` and is only overwritten when `ts_utc` is non-empty and
`datetime.fromisoformat` succeeds (a parse failure is caught and
logged, leaving the age at `0.0`).  `parseTs` abstracts
`fromisoformat(s.replace("Z", "+00:00"))`, returning the parsed
timestamp in seconds or `none` on failure. -/
def signalAge (parseTs : String → Option ℚ) (now : ℚ) (signal_ts_str : String) : ℚ :=
  if signal_ts_str = "" then 0
  else
    match parseTs signal_ts_str with
    | some signal_ts => now - signal_ts
    | none => 0

/-- Lines 172–175: `drift_bps = abs((current - entry) / entry) * 10000`
when both `entry_price > 0` and `current_price > 0`, else `0.0`. -/
def driftBps (entry_price current_price : ℚ) : ℚ :=
  if 0 < entry_price ∧ 0 < current_price then
    |(current_price - entry_price) / entry_price| * 10000
  else 0

/-- Lines 164–219 of `validate`: fetch the current mid price
(`ProviderError` propagates), compute the drift, reject when
`drift_bps > max_drift_bps`, otherwise return the valid result. -/
def SignalValidator.driftCheck (max_drift_bps : ℚ) (entry_price signal_age : ℚ)
    (fetchMid : Except Unit ℚ) : Except Unit ValidationResult :=
  match fetchMid with
  | .error e => .error e
  | .ok current_price =>
    if driftBps entry_price current_price > max_drift_bps then
      .ok { valid := false, current_price := some current_price,
            entry_price := entry_price,
            drift_bps := driftBps entry_price current_price,
            signal_age_seconds := signal_age,
            rejection_reason := some .priceDriftTooHigh }
    else
      .ok { valid := true, current_price := some current_price,
            entry_price := entry_price,
            drift_bps := driftBps entry_price current_price,
            signal_age_seconds := signal_age }

/-- Function `SignalValidator.validate` (lines 107–219): the age check runs first
and short-circuits before the fetch; only when `signal_age_seconds` is
not strictly above `max_signal_age` does the drift check (and hence the
price fetch) run. -/
def SignalValidator.validate (max_drift_bps max_signal_age : ℚ)
    (parseTs : String → Option ℚ) (now : ℚ) (fetchMid : Except Unit ℚ)
    (signal : Signal) : Except Unit ValidationResult :=
  if signalAge parseTs now signal.ts_utc > max_signal_age then
    .ok { valid := false, current_price := none,
          entry_price := signal.entry_price, drift_bps := 0,
          signal_age_seconds := signalAge parseTs now signal.ts_utc,
          rejection_reason := some .signalTooOld }
  else
    SignalValidator.driftCheck max_drift_bps signal.entry_price
      (signalAge parseTs now signal.ts_utc) fetchMid

/-! ## WebSocket subscriptions (`src/services/publisher/ws_server.py`) -/

/-- The three decision fields that `Subscription.matches` reads via
`decision.get("model")`, `decision.get("symbol")`,
`decision.get("event_type")`; `none` models an absent key. -/
structure DecisionMsg where
  model : Option String
  symbol : Option String
  event_type : Option String
  deriving DecidableEq, Repr

/-- A subscription: id plus its `filters` dict
(`Dict[str, str]`, modelled as an association list). -/
structure Subscription where
  id : String
  filters : List (String × String)
  deriving DecidableEq, Repr

/-- One iteration of the `for key, value in self.filters.items()` loop
in `Subscription.matches` (lines 32–38): the loop returns `False` when
the key is `"model"`/`"symbol"`/`"event_type"` and the decision's field
differs; any other key is simply skipped. -/
def filterFieldOk (d : DecisionMsg) (k v : String) : Bool :=
  (k != "model" || d.model == some v) &&
  (k != "symbol" || d.symbol == some v) &&
  (k != "event_type" || d.event_type == some v)

/-- Method `Subscription.matches` (lines 27–40): empty filters match
everything, otherwise every filter entry must pass its field check. -/
def Subscription.matches (s : Subscription) (d : DecisionMsg) : Bool :=
  if s.filters.isEmpty then true
  else s.filters.all fun kv => filterFieldOk d kv.1 kv.2

/-- Method `WebSocketManager.broadcast` (lines 123–158), restricted to the
part the claims are about: the snapshot of subscriptions to which a
send is attempted is exactly those whose filter matches the decision. -/
def WebSocketManager.broadcast (subs : List Subscription) (d : DecisionMsg) :
    List Subscription :=
  subs.filter fun s => s.matches d

/-- Method `WebSocketManager.unsubscribe` (lines 109–121): replaces the
subscription's filters with the sentinel `{"_unsubscribed": "true"}`. -/
def WebSocketManager.unsubscribe (s : Subscription) : Subscription :=
  { s with filters := [("_unsubscribed", "true")] }

/-- The decision field a filter key refers to, for stating the
conjunction property of filters over `model`/`symbol`/`event_type`. -/
def decisionField (d : DecisionMsg) : String → Option String
  | "model" => d.model
  | "symbol" => d.symbol
  | "event_type" => d.event_type
  | _ => none

/-! ## Python values and dict access

The decision payloads flowing through `factory.py` and `dlq.py` are
plain parsed-JSON Python values.  `PyVal` models them; a dict is an
association list of string keys. -/

/-- A parsed-JSON Python value as the decision paths see it. -/
inductive PyVal where
  | pynone
  | pybool (b : Bool)
  | pynum (q : ℚ)
  | pystr (s : String)
  | pylist (xs : List PyVal)
  | pydict (kvs : List (String × PyVal))

/-- Python's `d.get(k, default)`: the stored value when the key is
present (even when that value is `None`), the default otherwise. -/
def pyGet (d : List (String × PyVal)) (k : String) (dflt : PyVal) : PyVal :=
  match d.find? fun kv => kv.1 == k with
  | some kv => kv.2
  | none => dflt

/-- Python's `v is None`. -/
def pyIsNone : PyVal → Bool
  | .pynone => true
  | _ => false

/-- Python's `float(v)` on the values the decision paths feed it:
numbers are unchanged, booleans become 0/1.  (CPython additionally
parses numeric strings; such a string normalizes to a number, which
the idempotence theorem's hypothesis form already covers.)  `none`
models the `TypeError`/`ValueError` that any other value raises. -/
def pyFloat : PyVal → Option ℚ
  | .pynum q => some q
  | .pybool b => some (if b then 1 else 0)
  | _ => none

/-- Python's `int(q)` on a float: truncation toward zero. -/
def pyTruncInt (q : ℚ) : ℤ :=
  q.num.tdiv (q.den : ℤ)

/-- Python's `int(v)`: numbers truncate toward zero, booleans become
0/1, anything else raises (`none`). -/
def pyInt : PyVal → Option ℤ
  | .pynum q => some (pyTruncInt q)
  | .pybool b => some (if b then 1 else 0)
  | _ => none

/-! ## Decision-output normalization
(`src/services/evaluation/models/factory.py`, lines 252–281) -/

/-- The `VALID_DECISIONS` set of `factory.py`. -/
def VALID_DECISIONS : List String :=
  ["FOLLOW_ENTER", "IGNORE", "FOLLOW_EXIT", "HOLD", "TIGHTEN_STOP"]

/-- Lines 273–275 of `normalize_decision_output`: when
`normalized["confidence"] is not None`, replace it by
`max(0.0, min(1.0, float(confidence)))`; `none` models the exception
`float` raises on a non-numeric value. -/
def clampConfidence (v : PyVal) : Option PyVal :=
  if pyIsNone v then some v
  else
    match pyFloat v with
    | some q => some (.pynum (max 0 (min 1 q)))
    | none => none

/-- Lines 277–279: when `normalized["size_pct"] is not None`, replace
it by `max(0, min(100, int(size_pct)))` (Python integer arithmetic:
`int` truncates, then the clamp runs over integers). -/
def clampSize (v : PyVal) : Option PyVal :=
  if pyIsNone v then some v
  else
    match pyInt v with
    | some n => some (.pynum ((max 0 (min 100 n) : ℤ) : ℚ))
    | none => none

/-- Function `normalize_decision_output` (lines 252–281): rebuild the dict with
the six keys (defaults `"IGNORE"`, `0.5`, `None`, `None`, `None`,
`["unknown"]` for missing ones), then clamp `confidence` and
`size_pct` when they are not `None`.  The result dict is returned with
its keys in the source's construction order. -/
def normalize_decision_output (output : List (String × PyVal)) :
    Option (List (String × PyVal)) :=
  match clampConfidence (pyGet output "confidence" (.pynum (1/2))),
        clampSize (pyGet output "size_pct" .pynone) with
  | some c, some s =>
    some [("decision", pyGet output "decision" (.pystr "IGNORE")),
          ("confidence", c),
          ("entry_plan", pyGet output "entry_plan" .pynone),
          ("risk_plan", pyGet output "risk_plan" .pynone),
          ("size_pct", s),
          ("reasons", pyGet output "reasons" (.pylist [.pystr "unknown"]))]
  | _, _ => none

/-! ## Signal submission (`src/api/v1/signals.py`, lines 131–186)

`submit_signal` is modelled as a transition on the list of persisted
`Event` rows: with an idempotency key it first looks an existing row
up and, when found, answers with that row's `event_id` without
touching the table; otherwise it appends a fresh row (status
`"queued"`, committed before the enqueue attempt) carrying the key. -/

/-- The `Event` row fields the idempotency logic reads and writes. -/
structure EventRow where
  event_id : String
  idempotency_key : Option String
  status : String
  deriving DecidableEq, Repr

/-- Handler `submit_signal`: `(new table state, event_id of the response)`.
`freshId` is the `str(uuid4())` the handler would mint. -/
def submit_signal (db : List EventRow) (freshId : String)
    (idempotency_key : Option String) : List EventRow × String :=
  match idempotency_key with
  | some k =>
    match db.find? fun e => e.idempotency_key == some k with
    | some existing_event => (db, existing_event.event_id)
    | none => (db ++ [{ event_id := freshId, idempotency_key := some k,
                        status := "queued" }], freshId)
  | none => (db ++ [{ event_id := freshId, idempotency_key := none,
                      status := "queued" }], freshId)

/-! ## Enrichment (`enrichment_service.py` / `enrichment_worker.py`)

`EnrichmentService.enrich` never raises on a `ProviderError`: each
fetch helper catches it and records a `provider_errors` entry
(`_fetch_market_data` additionally returns `None` as the market data).
The enrichment is modelled as a function of the fetch outcomes; the
indicator arithmetic itself is out of scope (spec §1) and only the
quality bookkeeping that decides `success` and the worker's routing is
kept. -/

/-- The market-data dict `_fetch_market_data` assembles (keys
`mid_price`, `bid`, `ask`, `spread_bps`, optionally `volume_24h`). -/
abbrev MarketData := List (String × ℚ)

/-- Ticker fields read by `_fetch_market_data`. -/
structure TickerData where
  mid : ℚ
  bid : ℚ
  ask : ℚ
  spread_bps : ℚ
  deriving DecidableEq, Repr

/-- The `QualityFlags` dataclass of `enrichment_service.py`. -/
structure QualityFlags where
  stale : List String
  missing : List String
  out_of_range : List String
  provider_errors : List String
  deriving DecidableEq, Repr

/-- The `EnrichmentResult` dataclass, restricted to the fields the worker's routing
reads (`success`, `market_data`, `quality_flags`). -/
structure EnrichmentResult where
  success : Bool
  market_data : Option MarketData
  quality_flags : QualityFlags
  deriving DecidableEq

deriving instance DecidableEq for Except

/-- The provider-call outcomes one `enrich` run observes.
`candle_errors` / `candles_missing` are the `provider_errors` /
`missing` entries `_compute_ta` appends; `derivs_error` is the
optional error from `_fetch_derivs_data`; `stale` and `out_of_range`
are the findings of `_check_staleness` / `_validate_market_data` /
`_validate_ta_data`. -/
structure FetchEnv where
  ticker : Except String TickerData
  volume : Except String ℚ
  candle_errors : List String
  candles_missing : List String
  derivs_error : Option String
  stale : List String
  out_of_range : List String
  deriving DecidableEq, Repr

/-- Helper `_fetch_market_data` (lines 292–329): on ticker success build the
market dict (volume failure only records `missing: volume_24h`); on
`ProviderError` record `ticker: <e>` in `provider_errors` and return
`None`.  Result: `(market_data, provider error entries, missing
entries)`. -/
def fetch_market_data (ticker : Except String TickerData)
    (volume : Except String ℚ) :
    Option MarketData × List String × List String :=
  match ticker with
  | .error e => (none, ["ticker: " ++ e], [])
  | .ok t =>
    let base : MarketData :=
      [("mid_price", t.mid), ("bid", t.bid), ("ask", t.ask),
       ("spread_bps", t.spread_bps)]
    match volume with
    | .ok v => (some (base ++ [("volume_24h", v)]), [], [])
    | .error _ => (some base, [], ["volume_24h"])

/-- The `quality_flags.provider_errors` list one `enrich` run
accumulates, in source order: market-data fetch first, then the
per-timeframe candle errors, then the optional derivs error. -/
def enrichProviderErrors (env : FetchEnv) : List String :=
  (fetch_market_data env.ticker env.volume).2.1 ++ env.candle_errors ++
    (match env.derivs_error with
     | some e => ["derivs: " ++ e]
     | none => [])

/-- Method `EnrichmentService.enrich` (lines 205–290), as a function of the
fetch outcomes: accumulate the quality flags in source order and set
`success = len(quality_flags.provider_errors) == 0 and market_data is
not None` (line 277). -/
def EnrichmentService.enrich (env : FetchEnv) : EnrichmentResult :=
  { success := (enrichProviderErrors env).isEmpty &&
      (fetch_market_data env.ticker env.volume).1.isSome,
    market_data := (fetch_market_data env.ticker env.volume).1,
    quality_flags :=
      { stale := env.stale,
        missing := (fetch_market_data env.ticker env.volume).2.2 ++
          env.candles_missing,
        out_of_range := env.out_of_range,
        provider_errors := enrichProviderErrors env } }

/-- The observable effects of one `EnrichmentWorker.process_message`
call.  `ack = true` models `return True` (the consumer acks the
message); `ack = false` models `return False` or an escaped exception
(the consumer re-enqueues with backoff — `QueueConsumer._handle_failure`). -/
structure EnrichEffects where
  markedRejected : Bool
  persistedRow : Bool
  eventStatus : Option String
  timelineEnriched : Bool
  producedToEnriched : Bool
  ack : Bool
  deriving DecidableEq, Repr

/-- Method `EnrichmentWorker.process_message` (lines 55–192).  `validation` is
the outcome of the `signal_validator.validate` call (`.error` = a
`ProviderError` escaping to the generic handler, which returns
`False`); `eventFound` whether the `Event` row exists; `env` the fetch
outcomes of the `enrich` call.  On a rejected signal the worker marks
the event rejected and acks; on a found event it persists the enriched
row, sets the status from `enrichment_result.success`, appends the
`ENRICHED` timeline entry, and unconditionally produces to the
`enriched` stream (line 170, "Enqueue for evaluation even if
partial"), then returns `True`. -/
def EnrichmentWorker.process_message (validation : Except Unit ValidationResult)
    (eventFound : Bool) (env : FetchEnv) : EnrichEffects :=
  match validation with
  | .error _ =>
    { markedRejected := false, persistedRow := false, eventStatus := none,
      timelineEnriched := false, producedToEnriched := false, ack := false }
  | .ok res =>
    if res.valid then
      if eventFound then
        { markedRejected := false, persistedRow := true,
          eventStatus := some (if (EnrichmentService.enrich env).success
                               then "enriched" else "enrichment_partial"),
          timelineEnriched := true, producedToEnriched := true, ack := true }
      else
        { markedRejected := false, persistedRow := false, eventStatus := none,
          timelineEnriched := false, producedToEnriched := false, ack := false }
    else
      { markedRejected := true, persistedRow := false,
        eventStatus := some "rejected", timelineEnriched := false,
        producedToEnriched := false, ack := true }

/-! ## Pydantic decision schemas (`src/models/schemas/decision.py`)

`ModelDecision` and `ModelMeta` are pydantic models; constructing one
with values outside its `Literal`/range constraints raises a
`ValidationError`.  The checks below are the constraints the DLQ
publish-retry path exercises. -/

/-- The `Literal` values of `ModelMeta.status` (line 37 of
`decision.py`): `SUCCESS`, `TIMEOUT`, `API_ERROR`, `SCHEMA_ERROR`,
`RATE_LIMITED`. -/
def MODEL_META_STATUS_LITERALS : List String :=
  ["SUCCESS", "TIMEOUT", "API_ERROR", "SCHEMA_ERROR", "RATE_LIMITED"]

/-- Every element of the list is a Python `str`. -/
def allStrings : List PyVal → Bool
  | [] => true
  | .pystr _ :: rest => allStrings rest
  | _ :: _ => false

/-- The constraints of the pydantic `ModelDecision` schema on the three
fields the DLQ retry passes positionally: `decision` a `Literal` of the
five valid values, `confidence` a float in `[0, 1]`, `reasons` a
non-empty `List[str]`. -/
def pydanticDecisionFieldsOk (decision confidence reasons : PyVal) : Bool :=
  (match decision with
   | .pystr s => VALID_DECISIONS.contains s
   | _ => false) &&
  (match pyFloat confidence with
   | some q => decide (0 ≤ q) && decide (q ≤ 1)
   | none => false) &&
  (match reasons with
   | .pylist xs => !xs.isEmpty && allStrings xs
   | _ => false)

/-! ## DLQ retry (`src/api/v1/dlq.py`, lines 293–462) -/

/-- The `model_decisions` row the publish-retry path inserts
(lines 385–395): field values are taken from the stored payload with
defaults, and `status` is the literal `"ok"`. -/
structure DecisionRow where
  event_id : String
  model_name : PyVal
  decision : PyVal
  confidence : PyVal
  reasons : PyVal
  status : String

/-- The `ModelDecision` invariant the spec states (§3, §8): an `ok` row
has a decision in the valid set, a confidence in `[0, 1]` and non-empty
reasons; a non-`ok` row is the `IGNORE`/`0` fallback. -/
def modelDecisionInvariant (r : DecisionRow) : Prop :=
  (r.status = "ok" →
    (∃ s, r.decision = .pystr s ∧ s ∈ VALID_DECISIONS) ∧
    (∃ q, r.confidence = .pynum q ∧ 0 ≤ q ∧ q ≤ 1) ∧
    (∃ xs, r.reasons = .pylist xs ∧ xs ≠ [])) ∧
  (r.status ≠ "ok" → r.decision = .pystr "IGNORE" ∧ r.confidence = .pynum 0)

/-- The `DLQEntry` row fields `retry_dlq_entry` reads. -/
structure DLQEntryRow where
  event_id : Option String
  stage : String
  payload : List (String × PyVal)
  retry_count : ℤ
  resolved : Bool

/-- Helper `_normalize_stage_for_retry` (lines 142–159): map the legacy stage
names to the current ones, pass anything else through. -/
def normalize_stage_for_retry (stage : String) : String :=
  if stage = "enrichment" then "enrich"
  else if stage = "evaluation" then "evaluate"
  else stage

/-- The HTTP outcome of `retry_dlq_entry`: 200 with the new retry
count, 400 (resolved entry), or the 500 raised from the `except`
block. -/
inductive RetryResponse where
  | ok (retry_count : ℤ)
  | badRequest
  | serverError

/-- The observable effects of one `retry_dlq_entry` call.
`retry_count` / `last_retry_set` reflect what is committed
(the `except` block at lines 456–462 still commits the session —
"Still save the retry count update" — so every staged change,
including an already-added decision row, is persisted even when the
path later raises). -/
structure RetryEffects where
  retry_count : ℤ
  last_retry_set : Bool
  enqueuedPending : Bool
  enqueuedEnriched : Bool
  insertedDecision : Option DecisionRow
  eventStatusPublished : Bool
  timelinePublished : Bool
  broadcasted : Bool
  response : RetryResponse

/-- Handler `retry_dlq_entry` (lines 293–462) for an entry that exists.
`eventFound` is whether the parent `Event` row exists; `enqueueOk`
models the queue producer call succeeding.  The publish branch stages
the decision row, event status and timeline first, then builds the
pydantic `ModelDecisionSchema` whose `ModelMeta` is constructed with
`status="OK"` (line 424); only if that construction succeeds is the
decision broadcast.  A failure anywhere lands in the `except` block,
which commits the staged changes and answers 500. -/
def retry_dlq_entry (entry : DLQEntryRow) (eventFound : Bool)
    (enqueueOk : Bool) : RetryEffects :=
  if entry.resolved then
    { retry_count := entry.retry_count, last_retry_set := false,
      enqueuedPending := false, enqueuedEnriched := false,
      insertedDecision := none, eventStatusPublished := false,
      timelinePublished := false, broadcasted := false,
      response := .badRequest }
  else
    let rc := entry.retry_count + 1
    let stage := normalize_stage_for_retry entry.stage
    if stage = "enqueue" ∨ stage = "enrich" then
      match entry.event_id with
      | some _ =>
        if enqueueOk then
          { retry_count := rc, last_retry_set := true,
            enqueuedPending := true, enqueuedEnriched := false,
            insertedDecision := none, eventStatusPublished := false,
            timelinePublished := false, broadcasted := false,
            response := .ok rc }
        else
          { retry_count := rc, last_retry_set := true,
            enqueuedPending := false, enqueuedEnriched := false,
            insertedDecision := none, eventStatusPublished := false,
            timelinePublished := false, broadcasted := false,
            response := .serverError }
      | none =>
        { retry_count := rc, last_retry_set := true,
          enqueuedPending := false, enqueuedEnriched := false,
          insertedDecision := none, eventStatusPublished := false,
          timelinePublished := false, broadcasted := false,
          response := .serverError }
    else if stage = "evaluate" then
      match entry.event_id with
      | some _ =>
        if enqueueOk then
          { retry_count := rc, last_retry_set := true,
            enqueuedPending := false, enqueuedEnriched := true,
            insertedDecision := none, eventStatusPublished := false,
            timelinePublished := false, broadcasted := false,
            response := .ok rc }
        else
          { retry_count := rc, last_retry_set := true,
            enqueuedPending := false, enqueuedEnriched := false,
            insertedDecision := none, eventStatusPublished := false,
            timelinePublished := false, broadcasted := false,
            response := .serverError }
      | none =>
        { retry_count := rc, last_retry_set := true,
          enqueuedPending := false, enqueuedEnriched := false,
          insertedDecision := none, eventStatusPublished := false,
          timelinePublished := false, broadcasted := false,
          response := .serverError }
    else if stage = "publish" then
      match entry.event_id with
      | none =>
        { retry_count := rc, last_retry_set := true,
          enqueuedPending := false, enqueuedEnriched := false,
          insertedDecision := none, eventStatusPublished := false,
          timelinePublished := false, broadcasted := false,
          response := .serverError }
      | some eid =>
        let payload := entry.payload
        let model_name := pyGet payload "model" (.pystr "unknown")
        let decision_value := pyGet payload "decision" (.pystr "IGNORE")
        let confidence := pyGet payload "confidence" (.pynum 0)
        let reasons := pyGet payload "reasons" (.pylist [.pystr "retry"])
        let row : DecisionRow :=
          { event_id := eid, model_name := model_name,
            decision := decision_value, confidence := confidence,
            reasons := reasons, status := "ok" }
        let schemaOk := MODEL_META_STATUS_LITERALS.contains "OK" &&
          pydanticDecisionFieldsOk decision_value confidence reasons
        if schemaOk then
          { retry_count := rc, last_retry_set := true,
            enqueuedPending := false, enqueuedEnriched := false,
            insertedDecision := some row,
            eventStatusPublished := eventFound,
            timelinePublished := eventFound, broadcasted := true,
            response := .ok rc }
        else
          { retry_count := rc, last_retry_set := true,
            enqueuedPending := false, enqueuedEnriched := false,
            insertedDecision := some row,
            eventStatusPublished := eventFound,
            timelinePublished := eventFound, broadcasted := false,
            response := .serverError }
    else
      { retry_count := rc, last_retry_set := true,
        enqueuedPending := false, enqueuedEnriched := false,
        insertedDecision := none, eventStatusPublished := false,
        timelinePublished := false, broadcasted := false,
        response := .serverError }

/-! ## Theorems -/

/-- Evaluation of `driftCheck` on a successful fetch, with the match reduced. -/
theorem driftCheck_ok (maxD entry age cur : ℚ) :
    SignalValidator.driftCheck maxD entry age (.ok cur) =
      if driftBps entry cur > maxD then
        .ok { valid := false, current_price := some cur, entry_price := entry,
              drift_bps := driftBps entry cur, signal_age_seconds := age,
              rejection_reason := some .priceDriftTooHigh }
      else
        .ok { valid := true, current_price := some cur, entry_price := entry,
              drift_bps := driftBps entry cur, signal_age_seconds := age } := rfl

/-- C2: for a successful price fetch returning a positive mid and a
non-negative drift threshold, `validate` rejects a signal iff its age
strictly exceeds `max_signal_age` or, when `entry_price` is positive,
the drift in bps strictly exceeds `max_drift_bps` (so a zero
`entry_price` signal passes the drift check); and when the age check
fires, the result is the same whether the price fetch would have
succeeded or failed — no price fetch is consulted. -/
theorem validate_rejects_iff (maxD maxA now cur : ℚ)
    (parseTs : String → Option ℚ) (sig : Signal)
    (hcur : 0 < cur) (hD : 0 ≤ maxD) :
    (∃ res, SignalValidator.validate maxD maxA parseTs now (.ok cur) sig = .ok res ∧
      (res.valid = false ↔ (signalAge parseTs now sig.ts_utc > maxA ∨
        (0 < sig.entry_price ∧
          |(cur - sig.entry_price) / sig.entry_price| * 10000 > maxD)))) ∧
    (signalAge parseTs now sig.ts_utc > maxA →
      SignalValidator.validate maxD maxA parseTs now (.error ()) sig =
        SignalValidator.validate maxD maxA parseTs now (.ok cur) sig) := by
  constructor
  · by_cases hage : signalAge parseTs now sig.ts_utc > maxA
    · refine ⟨{ valid := false, current_price := none,
                entry_price := sig.entry_price, drift_bps := 0,
                signal_age_seconds := signalAge parseTs now sig.ts_utc,
                rejection_reason := some .signalTooOld }, ?_, ?_⟩
      · unfold SignalValidator.validate
        rw [if_pos hage]
      · simp [hage]
    · unfold SignalValidator.validate
      rw [if_neg hage, driftCheck_ok]
      by_cases hdr : driftBps sig.entry_price cur > maxD
      · refine ⟨{ valid := false, current_price := some cur,
                  entry_price := sig.entry_price,
                  drift_bps := driftBps sig.entry_price cur,
                  signal_age_seconds := signalAge parseTs now sig.ts_utc,
                  rejection_reason := some .priceDriftTooHigh }, ?_, ?_⟩
        · rw [if_pos hdr]
        · simp only [true_iff]
          right
          unfold driftBps at hdr
          by_cases hep : 0 < sig.entry_price ∧ 0 < cur
          · rw [if_pos hep] at hdr
            exact ⟨hep.1, hdr⟩
          · rw [if_neg hep] at hdr
            exact absurd hdr (not_lt.mpr hD)
      · refine ⟨{ valid := true, current_price := some cur,
                  entry_price := sig.entry_price,
                  drift_bps := driftBps sig.entry_price cur,
                  signal_age_seconds := signalAge parseTs now sig.ts_utc }, ?_, ?_⟩
        · rw [if_neg hdr]
        · simp only [Bool.true_eq_false, false_iff]
          rintro (h | ⟨hep, hx⟩)
          · exact hage h
          · apply hdr
            unfold driftBps
            rw [if_pos ⟨hep, hcur⟩]
            exact hx
  · intro hage
    unfold SignalValidator.validate
    rw [if_pos hage, if_pos hage]

/-- Witness for `validate_rejects_iff` at a concrete input: defaults
200 bps / 300 s, current mid 50000, entry 49000, unparsable
timestamp. -/
theorem validate_rejects_iff_witness :
    (∃ res, SignalValidator.validate 200 300 (fun _ => none) 0 (.ok 50000)
        { symbol := "BTC", entry_price := 49000, ts_utc := "" } = .ok res ∧
      (res.valid = false ↔
        (signalAge (fun _ => none) 0 "" > 300 ∨
          (0 < (49000 : ℚ) ∧
            |((50000 : ℚ) - 49000) / 49000| * 10000 > 200)))) ∧
    (signalAge (fun _ => none) 0 "" > 300 →
      SignalValidator.validate 200 300 (fun _ => none) 0 (.error ())
          { symbol := "BTC", entry_price := 49000, ts_utc := "" } =
        SignalValidator.validate 200 300 (fun _ => none) 0 (.ok 50000)
          { symbol := "BTC", entry_price := 49000, ts_utc := "" }) :=
  validate_rejects_iff 200 300 0 50000 (fun _ => none)
    { symbol := "BTC", entry_price := 49000, ts_utc := "" }
    (by norm_num) (by norm_num)

/-- C3 counterexample: a signal exactly at both thresholds is NOT
rejected.  With the default thresholds (200 bps, 300 s), entry 100,
current mid 102 (drift exactly 200 bps) and age exactly 300 s,
`validate` returns a valid result. -/
theorem exact_threshold_passes_cex :
    SignalValidator.validate 200 300 (fun _ => some 0) 300 (.ok 102)
      { symbol := "BTC", entry_price := 100, ts_utc := "2026-01-01T00:00:00Z" } =
    .ok { valid := true, current_price := some 102, entry_price := 100,
          drift_bps := 200, signal_age_seconds := 300,
          rejection_reason := none } := by
  have h1 : signalAge (fun _ => some 0) 300 "2026-01-01T00:00:00Z" = 300 := by
    unfold signalAge
    rw [if_neg (by decide : ¬("2026-01-01T00:00:00Z" : String) = "")]
    norm_num
  have h2 : driftBps 100 102 = 200 := by
    unfold driftBps
    rw [if_pos (by norm_num : (0:ℚ) < 100 ∧ (0:ℚ) < 102),
      show |((102:ℚ) - 100) / 100| = 2 / 100 by
        rw [abs_of_nonneg] <;> norm_num]
    norm_num
  unfold SignalValidator.validate
  norm_num [h1, driftCheck_ok, h2]

/-- C3 amended: both checks use strict `>`, so a signal whose age is
exactly `max_signal_age` and whose drift is exactly `max_drift_bps` is
accepted; rejection requires strictly exceeding a threshold. -/
theorem exact_threshold_passes (maxD maxA now cur : ℚ)
    (parseTs : String → Option ℚ) (sig : Signal)
    (hage : signalAge parseTs now sig.ts_utc = maxA)
    (hdrift : driftBps sig.entry_price cur = maxD) :
    SignalValidator.validate maxD maxA parseTs now (.ok cur) sig =
      .ok { valid := true, current_price := some cur,
            entry_price := sig.entry_price, drift_bps := maxD,
            signal_age_seconds := maxA, rejection_reason := none } := by
  unfold SignalValidator.validate
  rw [hage, if_neg (lt_irrefl maxA), driftCheck_ok, hdrift,
    if_neg (lt_irrefl maxD)]

/-- Witness for `exact_threshold_passes`: the concrete exact-threshold
signal of the counterexample. -/
theorem exact_threshold_passes_witness :
    SignalValidator.validate 200 300 (fun _ => some 0) 300 (.ok 102)
      { symbol := "BTC", entry_price := 100, ts_utc := "2026-01-01T00:00:00Z" } =
      .ok { valid := true, current_price := some 102, entry_price := 100,
            drift_bps := 200, signal_age_seconds := 300,
            rejection_reason := none } :=
  exact_threshold_passes 200 300 300 102 (fun _ => some 0)
    { symbol := "BTC", entry_price := 100, ts_utc := "2026-01-01T00:00:00Z" }
    (by
      unfold signalAge
      rw [if_neg (by decide : ¬("2026-01-01T00:00:00Z" : String) = "")]
      norm_num)
    (by
      unfold driftBps
      rw [if_pos (by norm_num : (0:ℚ) < 100 ∧ (0:ℚ) < 102),
        show |((102:ℚ) - 100) / 100| = 2 / 100 by
          rw [abs_of_nonneg] <;> norm_num]
      norm_num)

/-- C10: a signal whose `ts_utc` is missing/empty or unparsable gets
`signal_age_seconds = 0`; with a non-negative `max_signal_age` it is
therefore never rejected for age — whatever `now` is — and `validate`
is exactly the drift check (the price fetch is consulted), which can
never produce a `signalTooOld` rejection. -/
theorem unparsable_ts_age_zero (maxD maxA now : ℚ)
    (parseTs : String → Option ℚ) (fetchMid : Except Unit ℚ) (sig : Signal)
    (hts : sig.ts_utc = "" ∨ parseTs sig.ts_utc = none) (hA : 0 ≤ maxA) :
    signalAge parseTs now sig.ts_utc = 0 ∧
    SignalValidator.validate maxD maxA parseTs now fetchMid sig =
      SignalValidator.driftCheck maxD sig.entry_price 0 fetchMid ∧
    ∀ res, SignalValidator.driftCheck maxD sig.entry_price 0 fetchMid = .ok res →
      res.rejection_reason ≠ some .signalTooOld := by
  have hzero : signalAge parseTs now sig.ts_utc = 0 := by
    unfold signalAge
    rcases hts with h | h
    · rw [if_pos h]
    · by_cases he : sig.ts_utc = ""
      · rw [if_pos he]
      · rw [if_neg he, h]
  refine ⟨hzero, ?_, ?_⟩
  · unfold SignalValidator.validate
    rw [hzero, if_neg (not_lt.mpr hA)]
  · intro res hres
    cases fetchMid with
    | error e => exact absurd hres (by simp [SignalValidator.driftCheck])
    | ok cur =>
      rw [driftCheck_ok] at hres
      by_cases hdr : driftBps sig.entry_price cur > maxD
      · rw [if_pos hdr] at hres
        cases hres
        simp
      · rw [if_neg hdr] at hres
        cases hres
        simp

/-- Witness for `unparsable_ts_age_zero`: empty timestamp, default
thresholds, a fetch returning mid 102. -/
theorem unparsable_ts_age_zero_witness :
    signalAge (fun _ => none) 1000000 "" = 0 ∧
    SignalValidator.validate 200 300 (fun _ => none) 1000000 (.ok 102)
        { symbol := "BTC", entry_price := 100, ts_utc := "" } =
      SignalValidator.driftCheck 200 100 0 (.ok 102) ∧
    ∀ res, SignalValidator.driftCheck 200 100 0 (.ok 102) = .ok res →
      res.rejection_reason ≠ some .signalTooOld :=
  unparsable_ts_age_zero 200 300 1000000 (fun _ => none) (.ok 102)
    { symbol := "BTC", entry_price := 100, ts_utc := "" }
    (Or.inl rfl) (by norm_num)

/-- A filter entry whose key is one of the three recognized fields
passes its field check iff the decision's corresponding field equals
the filter value. -/
theorem filterFieldOk_known (d : DecisionMsg) (k v : String)
    (hk : k = "model" ∨ k = "symbol" ∨ k = "event_type") :
    filterFieldOk d k v = true ↔ decisionField d k = some v := by
  rcases hk with h | h | h <;> subst h <;>
    simp [filterFieldOk, decisionField]

/-- C7: for a subscription whose filter keys all lie in
`{model, symbol, event_type}`, broadcast attempts a send to it iff it
is registered and every field present in its filter equals the
decision's corresponding field (an empty filter matching every
decision); hence no such subscription receives a decision whose
fields violate its filter. -/
theorem broadcast_matches_iff (subs : List Subscription) (d : DecisionMsg)
    (s : Subscription)
    (hkeys : ∀ kv ∈ s.filters,
      kv.1 = "model" ∨ kv.1 = "symbol" ∨ kv.1 = "event_type") :
    s ∈ WebSocketManager.broadcast subs d ↔
      s ∈ subs ∧ ∀ kv ∈ s.filters, decisionField d kv.1 = some kv.2 := by
  unfold WebSocketManager.broadcast
  rw [List.mem_filter]
  refine and_congr_right fun _ => ?_
  unfold Subscription.matches
  by_cases hemp : s.filters.isEmpty
  · rw [if_pos hemp]
    rw [List.isEmpty_iff] at hemp
    simp [hemp]
  · rw [if_neg hemp, List.all_eq_true]
    constructor
    · intro h kv hkv
      exact (filterFieldOk_known d kv.1 kv.2 (hkeys kv hkv)).mp (h kv hkv)
    · intro h kv hkv
      exact (filterFieldOk_known d kv.1 kv.2 (hkeys kv hkv)).mpr (h kv hkv)

/-- Witness for `broadcast_matches_iff`: a registered subscription
filtering on `model = "chatgpt"`, and a matching decision. -/
theorem broadcast_matches_iff_witness :
    { id := "s1", filters := [("model", "chatgpt")] } ∈
        WebSocketManager.broadcast
          [{ id := "s1", filters := [("model", "chatgpt")] }]
          { model := some "chatgpt", symbol := some "BTC",
            event_type := some "OPEN_SIGNAL" } ↔
      ({ id := "s1", filters := [("model", "chatgpt")] } : Subscription) ∈
          [{ id := "s1", filters := [("model", "chatgpt")] }] ∧
        ∀ kv ∈ ([("model", "chatgpt")] : List (String × String)),
          decisionField
            { model := some "chatgpt", symbol := some "BTC",
              event_type := some "OPEN_SIGNAL" } kv.1 = some kv.2 :=
  broadcast_matches_iff
    [{ id := "s1", filters := [("model", "chatgpt")] }]
    { model := some "chatgpt", symbol := some "BTC",
      event_type := some "OPEN_SIGNAL" }
    { id := "s1", filters := [("model", "chatgpt")] }
    (by decide)

/-- C9: after `unsubscribe`, the subscription's filters are exactly the
sentinel `{"_unsubscribed": "true"}`, and because `matches` ignores
keys outside `{model, symbol, event_type}`, the subscription still
matches — and is sent — every subsequently broadcast decision. -/
theorem unsubscribe_still_broadcasts :
    ∀ (s : Subscription) (d : DecisionMsg) (others : List Subscription),
      (WebSocketManager.unsubscribe s).filters = [("_unsubscribed", "true")] ∧
      (WebSocketManager.unsubscribe s).matches d = true ∧
      WebSocketManager.unsubscribe s ∈
        WebSocketManager.broadcast (WebSocketManager.unsubscribe s :: others) d := by
  intro s d others
  have hm : (WebSocketManager.unsubscribe s).matches d = true := rfl
  refine ⟨rfl, hm, ?_⟩
  unfold WebSocketManager.broadcast
  rw [List.filter_cons, if_pos hm]
  exact List.mem_cons_self _ _

/-- Clamping into `[lo, hi]` is idempotent. -/
theorem clamp_clamp {α : Type} [LinearOrder α] (lo hi x : α) (h : lo ≤ hi) :
    max lo (min hi (max lo (min hi x))) = max lo (min hi x) := by
  have h1 : lo ≤ max lo (min hi x) := le_max_left _ _
  have h2 : max lo (min hi x) ≤ hi := max_le h (min_le_left _ _)
  rw [min_eq_right h2, max_eq_right h1]

/-- Truncation toward zero is the identity on an integer rational. -/
theorem pyTruncInt_intCast (n : ℤ) : pyTruncInt ((n : ℤ) : ℚ) = n := by
  unfold pyTruncInt
  rw [Rat.intCast_num, Rat.intCast_den]
  exact Int.tdiv_one n

/-- Step `clampConfidence` is idempotent on its own output. -/
theorem clampConfidence_idem (v c : PyVal) (h : clampConfidence v = some c) :
    clampConfidence c = some c := by
  unfold clampConfidence at h
  cases v with
  | pynone =>
    simp only [pyIsNone, if_pos] at h
    cases h
    rfl
  | pynum q =>
    simp only [pyIsNone, pyFloat, Bool.false_eq_true, if_false] at h
    cases h
    unfold clampConfidence
    simp only [pyIsNone, pyFloat, Bool.false_eq_true, if_false]
    rw [clamp_clamp 0 1 q (by norm_num)]
  | pybool b =>
    simp only [pyIsNone, pyFloat, Bool.false_eq_true, if_false] at h
    cases h
    unfold clampConfidence
    simp only [pyIsNone, pyFloat, Bool.false_eq_true, if_false]
    rw [clamp_clamp 0 1 _ (by norm_num)]
  | pystr s => simp [pyIsNone, pyFloat] at h
  | pylist xs => simp [pyIsNone, pyFloat] at h
  | pydict kvs => simp [pyIsNone, pyFloat] at h

/-- Step `clampSize` is idempotent on its own output. -/
theorem clampSize_idem (v c : PyVal) (h : clampSize v = some c) :
    clampSize c = some c := by
  unfold clampSize at h
  cases v with
  | pynone =>
    simp only [pyIsNone, if_pos] at h
    cases h
    rfl
  | pynum q =>
    simp only [pyIsNone, pyInt, Bool.false_eq_true, if_false] at h
    cases h
    unfold clampSize
    simp only [pyIsNone, pyInt, Bool.false_eq_true, if_false]
    rw [pyTruncInt_intCast, clamp_clamp 0 100 _ (by norm_num)]
  | pybool b =>
    simp only [pyIsNone, pyInt, Bool.false_eq_true, if_false] at h
    cases h
    unfold clampSize
    simp only [pyIsNone, pyInt, Bool.false_eq_true, if_false]
    rw [pyTruncInt_intCast, clamp_clamp 0 100 _ (by norm_num)]
  | pystr s => simp [pyIsNone, pyInt] at h
  | pylist xs => simp [pyIsNone, pyInt] at h
  | pydict kvs => simp [pyIsNone, pyInt] at h

/-- Lookup of `"decision"` in a normalized dict. -/
theorem pyGet_norm_decision (d c ep rp sp rs dflt : PyVal) :
    pyGet [("decision", d), ("confidence", c), ("entry_plan", ep),
           ("risk_plan", rp), ("size_pct", sp), ("reasons", rs)]
      "decision" dflt = d := rfl

/-- Lookup of `"confidence"` in a normalized dict. -/
theorem pyGet_norm_confidence (d c ep rp sp rs dflt : PyVal) :
    pyGet [("decision", d), ("confidence", c), ("entry_plan", ep),
           ("risk_plan", rp), ("size_pct", sp), ("reasons", rs)]
      "confidence" dflt = c := rfl

/-- Lookup of `"entry_plan"` in a normalized dict. -/
theorem pyGet_norm_entry_plan (d c ep rp sp rs dflt : PyVal) :
    pyGet [("decision", d), ("confidence", c), ("entry_plan", ep),
           ("risk_plan", rp), ("size_pct", sp), ("reasons", rs)]
      "entry_plan" dflt = ep := rfl

/-- Lookup of `"risk_plan"` in a normalized dict. -/
theorem pyGet_norm_risk_plan (d c ep rp sp rs dflt : PyVal) :
    pyGet [("decision", d), ("confidence", c), ("entry_plan", ep),
           ("risk_plan", rp), ("size_pct", sp), ("reasons", rs)]
      "risk_plan" dflt = rp := rfl

/-- Lookup of `"size_pct"` in a normalized dict. -/
theorem pyGet_norm_size_pct (d c ep rp sp rs dflt : PyVal) :
    pyGet [("decision", d), ("confidence", c), ("entry_plan", ep),
           ("risk_plan", rp), ("size_pct", sp), ("reasons", rs)]
      "size_pct" dflt = sp := rfl

/-- Lookup of `"reasons"` in a normalized dict. -/
theorem pyGet_norm_reasons (d c ep rp sp rs dflt : PyVal) :
    pyGet [("decision", d), ("confidence", c), ("entry_plan", ep),
           ("risk_plan", rp), ("size_pct", sp), ("reasons", rs)]
      "reasons" dflt = rs := rfl

/-- C8: `normalize_decision_output` is idempotent: whenever it
succeeds on a parsed model output `x` (Python raises on a
non-numeric `confidence`/`size_pct`), running it again on the result
returns the result unchanged. -/
theorem normalize_decision_output_idempotent (x y : List (String × PyVal))
    (h : normalize_decision_output x = some y) :
    normalize_decision_output y = some y := by
  unfold normalize_decision_output at h
  cases hc : clampConfidence (pyGet x "confidence" (.pynum (1/2))) with
  | none => rw [hc] at h; exact absurd h (by simp)
  | some c =>
    cases hs : clampSize (pyGet x "size_pct" .pynone) with
    | none => rw [hc, hs] at h; exact absurd h (by simp)
    | some sz =>
      rw [hc, hs] at h
      injection h with h
      subst h
      unfold normalize_decision_output
      rw [pyGet_norm_confidence, pyGet_norm_size_pct,
        clampConfidence_idem _ _ hc, clampSize_idem _ _ hs,
        pyGet_norm_decision, pyGet_norm_entry_plan, pyGet_norm_risk_plan,
        pyGet_norm_reasons]

/-- Witness for `normalize_decision_output_idempotent`: the
normalization of `{"confidence": None, "size_pct": None}` is a fixed
point. -/
theorem normalize_decision_output_idempotent_witness :
    normalize_decision_output
        [("decision", .pystr "IGNORE"), ("confidence", .pynone),
         ("entry_plan", .pynone), ("risk_plan", .pynone),
         ("size_pct", .pynone), ("reasons", .pylist [.pystr "unknown"])] =
      some [("decision", .pystr "IGNORE"), ("confidence", .pynone),
            ("entry_plan", .pynone), ("risk_plan", .pynone),
            ("size_pct", .pynone), ("reasons", .pylist [.pystr "unknown"])] :=
  normalize_decision_output_idempotent
    [("confidence", .pynone), ("size_pct", .pynone)]
    [("decision", .pystr "IGNORE"), ("confidence", .pynone),
     ("entry_plan", .pynone), ("risk_plan", .pynone),
     ("size_pct", .pynone), ("reasons", .pylist [.pystr "unknown"])]
    rfl

/-- List `find?` skips a prefix on which the predicate never holds. -/
theorem find?_append_of_none {α : Type} (l1 l2 : List α) (p : α → Bool)
    (h : l1.find? p = none) : (l1 ++ l2).find? p = l2.find? p := by
  induction l1 with
  | nil => simp
  | cons a t ih =>
    have hall := List.find?_eq_none.mp h
    have hpa : ¬p a = true := hall a (List.mem_cons_self a t)
    have ht : t.find? p = none :=
      List.find?_eq_none.mpr fun x hx => hall x (List.mem_cons_of_mem a hx)
    rw [List.cons_append, List.find?_cons_of_neg _ hpa]
    exact ih ht

/-- The fresh `Event` row `submit_signal` persists before enqueueing. -/
def queuedRow (freshId : String) (k : Option String) : EventRow :=
  { event_id := freshId, idempotency_key := k, status := "queued" }

/-- Handler `submit_signal` with an idempotency key, unfolded. -/
theorem submit_signal_some (db : List EventRow) (freshId k : String) :
    submit_signal db freshId (some k) =
      match db.find? fun e => e.idempotency_key == some k with
      | some existing_event => (db, existing_event.event_id)
      | none => (db ++ [queuedRow freshId (some k)], freshId) := rfl

/-- C4: submitting twice with the same idempotency key `k`, starting
from a table with no row for `k`: the second response carries the same
`event_id` as the first, the second submission leaves the table
unchanged (no new `Event` row), and exactly one row with key `k`
exists after the first submission. -/
theorem submit_signal_idempotent (db : List EventRow) (k fresh1 fresh2 : String)
    (hnew : ∀ e ∈ db, e.idempotency_key ≠ some k) :
    (submit_signal (submit_signal db fresh1 (some k)).1 fresh2 (some k)).2 =
      (submit_signal db fresh1 (some k)).2 ∧
    (submit_signal (submit_signal db fresh1 (some k)).1 fresh2 (some k)).1 =
      (submit_signal db fresh1 (some k)).1 ∧
    ((submit_signal db fresh1 (some k)).1.filter
        (fun e => e.idempotency_key == some k)).length = 1 := by
  have hfind : db.find? (fun e => e.idempotency_key == some k) = none :=
    List.find?_eq_none.mpr fun e he => by simpa using hnew e he
  have h1 : submit_signal db fresh1 (some k) =
      (db ++ [queuedRow fresh1 (some k)], fresh1) := by
    rw [submit_signal_some, hfind]
  have hfind2 : List.find? (fun e => e.idempotency_key == some k)
      (db ++ [queuedRow fresh1 (some k)]) = some (queuedRow fresh1 (some k)) := by
    rw [find?_append_of_none _ _ _ hfind]
    rw [List.find?_cons_of_pos]
    simp [queuedRow]
  have h2 : submit_signal (db ++ [queuedRow fresh1 (some k)]) fresh2 (some k) =
      (db ++ [queuedRow fresh1 (some k)], fresh1) := by
    rw [submit_signal_some, hfind2]
    rfl
  refine ⟨?_, ?_, ?_⟩
  · rw [h1, h2]
  · rw [h1, h2]
  · rw [h1, List.filter_append, List.filter_eq_nil_iff.mpr
      (fun e he => by simpa using hnew e he)]
    simp [queuedRow]

/-- Witness for `submit_signal_idempotent`: an empty table and the
key `"abc"`. -/
theorem submit_signal_idempotent_witness :
    (submit_signal (submit_signal [] "e1" (some "abc")).1 "e2" (some "abc")).2 =
      (submit_signal [] "e1" (some "abc")).2 ∧
    (submit_signal (submit_signal [] "e1" (some "abc")).1 "e2" (some "abc")).1 =
      (submit_signal [] "e1" (some "abc")).1 ∧
    ((submit_signal [] "e1" (some "abc")).1.filter
        (fun e => e.idempotency_key == some "abc")).length = 1 :=
  submit_signal_idempotent [] "abc" "e1" "e2" (by simp)

/-- A passing validation result, for exercising the worker paths. -/
def validResultEx : ValidationResult :=
  { valid := true, current_price := some 102, entry_price := 100,
    drift_bps := 200, signal_age_seconds := 0 }

/-- A full provider failure: the ticker fetch (and everything else)
fails, so `enrich` has no market data. -/
def fullFailureEnv : FetchEnv :=
  { ticker := .error "HTTP 500", volume := .error "HTTP 500",
    candle_errors := [], candles_missing := [], derivs_error := none,
    stale := [], out_of_range := [] }

/-- A partial failure: ticker succeeds but one candle fetch fails, so
market data is present with a provider error recorded. -/
def partialEnv : FetchEnv :=
  { ticker := .ok { mid := 102, bid := 101, ask := 103, spread_bps := 2 },
    volume := .ok 5, candle_errors := ["candles_1h: timeout"],
    candles_missing := [], derivs_error := none,
    stale := [], out_of_range := [] }

/-- C5 (amended): after a passing validation with the event row found,
the worker always persists the enriched row, produces to the enriched
stream and acks — with `Event.status = enriched` exactly when there
are no provider errors and market data is present, and
`enrichment_partial` otherwise; in particular a full provider failure
(no market data) is also persisted, forwarded and acked (as
`enrichment_partial`), not retried. -/
theorem enrichment_partial_forwards (res : ValidationResult) (env : FetchEnv)
    (hvalid : res.valid = true) :
    (EnrichmentWorker.process_message (.ok res) true env).persistedRow = true ∧
    (EnrichmentWorker.process_message (.ok res) true env).producedToEnriched = true ∧
    (EnrichmentWorker.process_message (.ok res) true env).ack = true ∧
    ((EnrichmentWorker.process_message (.ok res) true env).eventStatus =
        some "enriched" ↔
      ((EnrichmentService.enrich env).quality_flags.provider_errors = [] ∧
        (EnrichmentService.enrich env).market_data.isSome = true)) ∧
    ((EnrichmentService.enrich env).market_data = none →
      (EnrichmentWorker.process_message (.ok res) true env).eventStatus =
        some "enrichment_partial") := by
  have hsucc : (EnrichmentService.enrich env).success =
      ((EnrichmentService.enrich env).quality_flags.provider_errors.isEmpty &&
        (EnrichmentService.enrich env).market_data.isSome) := rfl
  have hiff : (EnrichmentService.enrich env).success = true ↔
      ((EnrichmentService.enrich env).quality_flags.provider_errors = [] ∧
        (EnrichmentService.enrich env).market_data.isSome = true) := by
    rw [hsucc, Bool.and_eq_true, List.isEmpty_iff]
  have hred : EnrichmentWorker.process_message (.ok res) true env =
      if res.valid = true then
        { markedRejected := false, persistedRow := true,
          eventStatus := some (if (EnrichmentService.enrich env).success
                               then "enriched" else "enrichment_partial"),
          timelineEnriched := true, producedToEnriched := true, ack := true }
      else
        { markedRejected := true, persistedRow := false,
          eventStatus := some "rejected", timelineEnriched := false,
          producedToEnriched := false, ack := true } := rfl
  rw [hred, if_pos hvalid]
  refine ⟨rfl, rfl, rfl, ?_, ?_⟩
  · cases hs : (EnrichmentService.enrich env).success with
    | true =>
      rw [if_pos rfl]
      exact iff_of_true rfl (hiff.mp hs)
    | false =>
      rw [if_neg (by decide)]
      refine iff_of_false (by simp) fun hr => ?_
      have hT := hiff.mpr hr
      rw [hs] at hT
      exact Bool.noConfusion hT
  · intro hnone
    have hf : (EnrichmentService.enrich env).success = false := by
      rw [hsucc, hnone]
      simp
    rw [hf, if_neg (by decide)]

/-- C5 counterexample: on a full provider failure (`enrich` returns no
market data), the worker still produces the event to the enriched
stream, still acks the message (no retry), and records
`enrichment_partial` — the claim's "not forwarded and retried" is
false on the code. -/
theorem full_provider_failure_forwards_cex :
    (EnrichmentService.enrich fullFailureEnv).market_data = none ∧
    (EnrichmentWorker.process_message (.ok validResultEx) true
        fullFailureEnv).producedToEnriched = true ∧
    (EnrichmentWorker.process_message (.ok validResultEx) true
        fullFailureEnv).ack = true ∧
    (EnrichmentWorker.process_message (.ok validResultEx) true
        fullFailureEnv).eventStatus = some "enrichment_partial" :=
  ⟨rfl, rfl, rfl, rfl⟩

/-- Witness for `enrichment_partial_forwards`: the partial-failure
environment (`ticker` up, one candle fetch down). -/
theorem enrichment_partial_forwards_witness :
    (EnrichmentWorker.process_message (.ok validResultEx) true
        partialEnv).persistedRow = true ∧
    (EnrichmentWorker.process_message (.ok validResultEx) true
        partialEnv).producedToEnriched = true ∧
    (EnrichmentWorker.process_message (.ok validResultEx) true
        partialEnv).ack = true ∧
    ((EnrichmentWorker.process_message (.ok validResultEx) true
          partialEnv).eventStatus = some "enriched" ↔
      ((EnrichmentService.enrich partialEnv).quality_flags.provider_errors = [] ∧
        (EnrichmentService.enrich partialEnv).market_data.isSome = true)) ∧
    ((EnrichmentService.enrich partialEnv).market_data = none →
      (EnrichmentWorker.process_message (.ok validResultEx) true
          partialEnv).eventStatus = some "enrichment_partial") :=
  enrichment_partial_forwards validResultEx partialEnv rfl

/-- The publish-stage DLQ entry of spec scenario 6: payload
`{model: "chatgpt", decision: "FOLLOW_ENTER", confidence: 0.7,
reasons: ["r"]}`, unresolved. -/
def scenarioSixEntry : DLQEntryRow :=
  { event_id := some "E", stage := "publish",
    payload := [("model", .pystr "chatgpt"),
                ("decision", .pystr "FOLLOW_ENTER"),
                ("confidence", .pynum (7/10)),
                ("reasons", .pylist [.pystr "r"])],
    retry_count := 0, resolved := false }

/-- Entry `scenarioSixEntry` with `resolved_at` set. -/
def resolvedEntry : DLQEntryRow :=
  { scenarioSixEntry with resolved := true }

/-- An unresolved entry under the legacy stage name `enrichment`. -/
def legacyEnrichEntry : DLQEntryRow :=
  { event_id := some "E3", stage := "enrichment", payload := [],
    retry_count := 0, resolved := false }

/-- An unresolved entry under the legacy stage name `evaluation`. -/
def legacyEvaluateEntry : DLQEntryRow :=
  { event_id := some "E4", stage := "evaluation", payload := [],
    retry_count := 0, resolved := false }

/-- C6 at the failing input (scenario 6's publish entry): the retry
increments `retry_count`, sets `last_retry_at`, maps the legacy stage
names, routes `enrichment`→pending and `evaluation`→enriched, refuses
a resolved entry, and for the publish stage persists the
reconstructed `ModelDecision` row, sets `Event.status = published` and
appends the `PUBLISHED` timeline entry — but the decision is NEVER
broadcast: `ModelMeta(status="OK")` fails its `Literal` validation, so
the handler lands in the `except` block (committing the staged
changes) and answers 500 instead of broadcasting. -/
theorem dlq_publish_retry_never_broadcasts :
    (retry_dlq_entry scenarioSixEntry true true).retry_count = 1 ∧
    (retry_dlq_entry scenarioSixEntry true true).last_retry_set = true ∧
    (retry_dlq_entry scenarioSixEntry true true).insertedDecision = some
      { event_id := "E", model_name := .pystr "chatgpt",
        decision := .pystr "FOLLOW_ENTER", confidence := .pynum (7/10),
        reasons := .pylist [.pystr "r"], status := "ok" } ∧
    (retry_dlq_entry scenarioSixEntry true true).eventStatusPublished = true ∧
    (retry_dlq_entry scenarioSixEntry true true).timelinePublished = true ∧
    (retry_dlq_entry scenarioSixEntry true true).broadcasted = false ∧
    (retry_dlq_entry scenarioSixEntry true true).response = .serverError ∧
    (retry_dlq_entry resolvedEntry true true).response = .badRequest ∧
    (retry_dlq_entry resolvedEntry true true).insertedDecision = none ∧
    normalize_stage_for_retry "enrichment" = "enrich" ∧
    normalize_stage_for_retry "evaluation" = "evaluate" ∧
    (retry_dlq_entry legacyEnrichEntry true true).enqueuedPending = true ∧
    (retry_dlq_entry legacyEvaluateEntry true true).enqueuedEnriched = true :=
  ⟨rfl, rfl, rfl, rfl, rfl, rfl, rfl, rfl, rfl, rfl, rfl, rfl, rfl⟩

/-- A publish-stage DLQ entry whose stored payload holds an invalid
decision, an out-of-range confidence and empty reasons. -/
def badPublishEntry : DLQEntryRow :=
  { event_id := some "E2", stage := "publish",
    payload := [("model", .pystr "chatgpt"),
                ("decision", .pystr "BOGUS"),
                ("confidence", .pynum 2),
                ("reasons", .pylist [])],
    retry_count := 3, resolved := false }

/-- C1 at the failing input: the DLQ publish retry persists (the
`except` block commits the staged row) a `model_decisions` row with
`status = "ok"` whose values come from the stored payload unvalidated —
here `decision = "BOGUS"`, `confidence = 2`, `reasons = []` — so the
spec's ModelDecision invariant is violated by a row the pipeline
wrote. -/
theorem dlq_retry_violates_decision_invariant :
    ∃ row, (retry_dlq_entry badPublishEntry true true).insertedDecision =
        some row ∧
      row.status = "ok" ∧ ¬modelDecisionInvariant row := by
  refine ⟨{ event_id := "E2", model_name := .pystr "chatgpt",
            decision := .pystr "BOGUS", confidence := .pynum 2,
            reasons := .pylist [], status := "ok" }, rfl, rfl, ?_⟩
  intro h
  obtain ⟨sdec, hs, hmem⟩ := (h.1 rfl).1
  injection hs with hs
  subst hs
  exact absurd hmem (by decide)

end SigmaPilotLens
